import Mathlib

/-!
# A shallow embedding of the `physics2.py` engine

This file models the 2D physics engine of the repository (file
`src/physics2.py`) and settles a list of claims about it.

Modelling conventions:

* `pygame.Rect` data (`x`, `y`, `w`, `h`) is modelled with `Int`; the derived
  edges are `left = x`, `right = x + w`, `top = y`, `bottom = y + h`.
  Assigning to a derived edge moves the rectangle, exactly as in pygame.
* Python `float` velocities are idealised as exact rationals `ℚ`; `round` is
  modelled by `pyRound`, Python's banker's rounding (ties to even).
* In the Python source, `Object.speed: List[float] = [0, 0]` is a *class*
  attribute: a single mutable list shared by every `Object` that was never
  given an instance attribute by an assignment `obj.speed = [...]`.  We model
  this faithfully: each object carries `speedInst : Option (ℚ × ℚ)` (its
  instance attribute, if any) and the space carries `objectClassSpeed`, the
  shared class-level list.  Reading `obj.speed` yields the instance pair when
  present and the class pair otherwise; an in-place write `obj.speed[i] = v`
  mutates whichever pair the read yields; an assignment `obj.speed = [...]`
  installs a fresh instance pair.
* The `Space` class has the same defect for its entity lists (`targets`,
  `players`, ... are class attributes, `__init__` does not assign them).  The
  main model below describes a single space — the program's only instance, for
  which the class-level lists are exactly the lists reachable from it.  The
  cross-instance aliasing itself is modelled separately at the end of the
  definitions (`SpaceClassAttrs`, `SpaceInstSlots`, `add_object_shared`).
* Exceptions (`TypeError`, `IndexError`, `ZeroDivisionError`,
  `AttributeError`) are modelled with `Except PyErr`.
-/

deriving instance DecidableEq for Except

namespace Phys

/-- Python exceptions that the engine can actually raise. -/
inductive PyErr where
  | typeError
  | indexError
  | zeroDivisionError
  | attributeError
deriving DecidableEq

/-- The four contact sides returned by `whatside`. -/
inductive Side where
  | top
  | bottom
  | right
  | left
deriving DecidableEq

/-- The entity categories stored by the space (the singleton thinking box is
kept apart, as in the source). -/
inductive Kind where
  | target
  | player
  | box
  | platform
deriving DecidableEq

/-- A reference to an entity: which list it lives in and its index there.
Collision events hold references to live entities, so resolving one event can
affect entities referenced by a later event (`physics2.py` aliasing). -/
structure Ref where
  kind : Kind
  idx : Nat
deriving DecidableEq

/-- The second participant of a collision event: another entity or the
`"wall"` sentinel. -/
inductive Part where
  | obj (r : Ref)
  | wall
deriving DecidableEq

/-- One collision event `(item1, item2, collision type)`. -/
structure Collision where
  item1 : Ref
  item2 : Part
  ctype : Nat
deriving DecidableEq

/-- `COLLISION_TYPES["box_to_target"]`. -/
def ctBoxTarget : Nat := 0

/-- `COLLISION_TYPES["object_to_platform"]`. -/
def ctObjPlatform : Nat := 1

/-- `COLLISION_TYPES["player_to_box"]`. -/
def ctPlayerBox : Nat := 2

/-- `COLLISION_TYPES["box_to_box"]`. -/
def ctBoxBox : Nat := 3

/-- `COLLISION_TYPES["player_to_player"]`. -/
def ctPlayerPlayer : Nat := 4

/-- `COLLISION_TYPES["object_to_border"]`. -/
def ctObjBorder : Nat := 5

/-- An `Object` of the simulation: a pygame rectangle (in upscaled units)
together with its `speed` *instance* attribute, when one has been assigned.
While `speedInst = none` the object reads the class-level speed list shared by
all such objects (see `Space.objectClassSpeed`). -/
structure Object where
  x : Int
  y : Int
  w : Int
  h : Int
  speedInst : Option (ℚ × ℚ)
deriving DecidableEq

/-- Placeholder object for out-of-range list reads (never reached by events
produced by the detector). -/
def defaultObj : Object := ⟨0, 0, 0, 0, none⟩

/-- right edge of a rectangle. -/
def Object.right (o : Object) : Int := o.x + o.w

/-- bottom edge of a rectangle. -/
def Object.bottom (o : Object) : Int := o.y + o.h

/-- pygame `Rect.__eq__`: rectangles compare by `(x, y, w, h)` only (the
`speed` attribute does not take part).  Used by the Python `in` test
`item1 in self.players`. -/
def rectEq (a b : Object) : Bool :=
  a.x = b.x && a.y = b.y && a.w = b.w && a.h = b.h

/-- pygame `Rect.colliderect`: strict overlap (touching edges do not
collide). -/
def colliderect (a b : Object) : Bool :=
  a.x < b.x + b.w && a.x + a.w > b.x && a.y < b.y + b.h && a.y + a.h > b.y

/-- pygame `Rect.__bool__`: a rectangle is truthy when both its width and
height are nonzero.  Used by the `if self.thinkingbox:` test. -/
def rectTruthy (o : Object) : Bool :=
  o.w ≠ 0 && o.h ≠ 0

/-- The side-determination heuristic `whatside` of `resolve_collisions`,
with its fixed default tolerance of 31 internal units: the first of
top, bottom, right, left whose edge-distance is strictly below the
tolerance; `none` when no side qualifies. -/
def whatside (a b : Object) : Option Side :=
  if |a.y - (b.y + b.h)| < 31 then some Side.top
  else if |(a.y + a.h) - b.y| < 31 then some Side.bottom
  else if |(a.x + a.w) - b.x| < 31 then some Side.right
  else if |a.x - (b.x + b.w)| < 31 then some Side.left
  else none

/-- Python's `round` on an exact rational: banker's rounding, ties go to the
even integer. -/
def pyRound (q : ℚ) : Int :=
  let f := q.floor
  let r := q - (f : ℚ)
  if r < 1 / 2 then f
  else if r > 1 / 2 then f + 1
  else if f % 2 = 0 then f else f + 1

/-- The state of one `Space` instance (the program's only one): the entity
lists, the thinking box, the derived flags, the world geometry, and the
class-level `Object.speed` list shared by every object without an instance
speed attribute. -/
structure Space where
  w : Int
  h : Int
  gravity : Int
  upscale : Int
  targets : List Object
  players : List Object
  boxes : List Object
  platforms : List Object
  thinkingbox : Option Object
  targets_engaged : Int
  player_on_ground : Bool
  player_in_thinkingbox : Bool
  objectClassSpeed : ℚ × ℚ
deriving DecidableEq

/-- `Space.__init__(w, h, gravity, upscale)`: stores the width, height and
gravity pre-multiplied by the upscale factor.  The entity lists of a fresh
program run are empty. -/
def mkSpace (w h gravity : Int) (upscale : Int) : Space :=
  ⟨w * upscale, h * upscale, gravity * upscale, upscale,
    [], [], [], [], none, 0, false, false, (0, 0)⟩

/-- The list a `Kind` selects. -/
def Space.kindList (s : Space) : Kind → List Object
  | Kind.target => s.targets
  | Kind.player => s.players
  | Kind.box => s.boxes
  | Kind.platform => s.platforms

/-- Dereference an entity reference (out-of-range reads give `defaultObj`;
the detector never produces such references). -/
def Space.getObjD (s : Space) (r : Ref) : Object :=
  (s.kindList r.kind).getD r.idx defaultObj

/-- Write an entity back through its reference. -/
def Space.setObj (s : Space) (r : Ref) (o : Object) : Space :=
  match r.kind with
  | Kind.target => { s with targets := s.targets.set r.idx o }
  | Kind.player => { s with players := s.players.set r.idx o }
  | Kind.box => { s with boxes := s.boxes.set r.idx o }
  | Kind.platform => { s with platforms := s.platforms.set r.idx o }

/-- The speed an object observes: its instance attribute when assigned,
otherwise the shared class-level list. -/
def Space.obsSpeedObj (s : Space) (o : Object) : ℚ × ℚ :=
  o.speedInst.getD s.objectClassSpeed

/-- The speed observed through a reference. -/
def Space.obsSpeed (s : Space) (r : Ref) : ℚ × ℚ :=
  s.obsSpeedObj (s.getObjD r)

/-- In-place write `item.speed[0] = v`: mutates the list the attribute read
yields — the instance list when present, else the shared class list. -/
def Space.writeSpeedX (s : Space) (r : Ref) (v : ℚ) : Space :=
  let o := s.getObjD r
  match o.speedInst with
  | some p => s.setObj r { o with speedInst := some (v, p.2) }
  | none => { s with objectClassSpeed := (v, s.objectClassSpeed.2) }

/-- In-place update `item.speed[1] = f (item.speed[1])` (covers
`speed[1] *= -1`, `speed[1] *= 0` and `speed[1] += dv`). -/
def Space.mapSpeedY (s : Space) (r : Ref) (f : ℚ → ℚ) : Space :=
  let o := s.getObjD r
  match o.speedInst with
  | some p => s.setObj r { o with speedInst := some (p.1, f p.2) }
  | none =>
    { s with objectClassSpeed := (s.objectClassSpeed.1, f s.objectClassSpeed.2) }

/-- Assignment `item.speed = [a, b]`: installs a fresh instance list. -/
def Space.assignSpeed (s : Space) (r : Ref) (v : ℚ × ℚ) : Space :=
  let o := s.getObjD r
  s.setObj r { o with speedInst := some v }

/-- `Space.add_object(x, y, w, h, type)`: scales the rectangle by the upscale
factor, appends it to the list its type string selects (or installs it as the
thinking box) and returns it.  A type outside the five known strings matches
no branch: the object is returned and no list changes — the call does not
raise. -/
def Space.add_object (s : Space) (x y w h : Int) (ty : String) :
    Space × Object :=
  let item : Object :=
    ⟨x * s.upscale, y * s.upscale, w * s.upscale, h * s.upscale, none⟩
  let s :=
    if ty = "target" then { s with targets := s.targets ++ [item] }
    else if ty = "player" then { s with players := s.players ++ [item] }
    else if ty = "box" then { s with boxes := s.boxes ++ [item] }
    else if ty = "platform" then { s with platforms := s.platforms ++ [item] }
    else if ty = "thinkingbox" then { s with thinkingbox := some item }
    else s
  (s, item)

/-- Resolution of an `object_to_platform` event (`item1` moving entity,
`item2` platform), lines 214–231 of the source.  Mutations are threaded in
source order; the object is re-read after every write, as Python's in-place
mutation does. -/
def Space.resolveObjPlatform (s : Space) (r1 r2 : Ref) : Space :=
  let o1 := s.getObjD r1
  let o2 := s.getObjD r2
  match whatside o1 o2 with
  | some Side.left =>
    -- item1.speed[0] = 0; item1.left = item2.right
    let s := s.writeSpeedX r1 0
    let o1b := s.getObjD r1
    let o2b := s.getObjD r2
    s.setObj r1 { o1b with x := o2b.x + o2b.w }
  | some Side.right =>
    -- item1.speed[0] = 0; item1.right = item2.left
    let s := s.writeSpeedX r1 0
    let o1b := s.getObjD r1
    let o2b := s.getObjD r2
    s.setObj r1 { o1b with x := o2b.x - o1b.w }
  | some Side.top =>
    -- item1.speed = [item1.speed[0], item1.speed[1] * -1]; item1.top = item2.bottom
    let sp := s.obsSpeedObj o1
    let s := s.assignSpeed r1 (sp.1, -sp.2)
    let o1b := s.getObjD r1
    let o2b := s.getObjD r2
    s.setObj r1 { o1b with y := o2b.y + o2b.h }
  | some Side.bottom =>
    -- item1.speed = [0, 0]; item1.bottom = item2.top; grounded if item1 in players
    let s := s.assignSpeed r1 (0, 0)
    let o1b := s.getObjD r1
    let o2b := s.getObjD r2
    let s := s.setObj r1 { o1b with y := o2b.y - o1b.h }
    let o1c := s.getObjD r1
    if s.players.any (fun p => rectEq p o1c) then
      { s with player_on_ground := true }
    else s
  | none => s

/-- Resolution of a `player_to_box` event (`item1` player, `item2` box),
lines 233–249 of the source. -/
def Space.resolvePlayerBox (s : Space) (r1 r2 : Ref) : Space :=
  let o1 := s.getObjD r1
  let o2 := s.getObjD r2
  match whatside o1 o2 with
  | some Side.top =>
    -- item2.speed = [0, 0]; item2.bottom = item1.top
    let s := s.assignSpeed r2 (0, 0)
    let o1b := s.getObjD r1
    let o2b := s.getObjD r2
    s.setObj r2 { o2b with y := o1b.y - o2b.h }
  | some Side.bottom =>
    -- item1.speed = [0, 0]; item1.bottom = item2.top; grounded
    let s := s.assignSpeed r1 (0, 0)
    let o1b := s.getObjD r1
    let o2b := s.getObjD r2
    let s := s.setObj r1 { o1b with y := o2b.y - o1b.h }
    { s with player_on_ground := true }
  | some Side.left =>
    -- item2.speed = [0, item2.speed[1]]; item2.right = item1.left
    let sp2 := s.obsSpeedObj o2
    let s := s.assignSpeed r2 (0, sp2.2)
    let o1b := s.getObjD r1
    let o2b := s.getObjD r2
    s.setObj r2 { o2b with x := o1b.x - o2b.w }
  | some Side.right =>
    -- item2.speed = [0, item2.speed[1]]; item2.left = item1.right
    let sp2 := s.obsSpeedObj o2
    let s := s.assignSpeed r2 (0, sp2.2)
    let o1b := s.getObjD r1
    let o2b := s.getObjD r2
    s.setObj r2 { o2b with x := o1b.x + o1b.w }
  | none => s

/-- Resolution of a `box_to_box` event, lines 251–281 of the source.  The
first registered player is read first (`self.players[0]`, an `IndexError`
with no players); the "alpha" (dominant) box is `item1` unless `item1` is
strictly farther from that player, in which case it is `item2` — so the alpha
box is always the one *nearer* to the player (ties go to `item1`). -/
def Space.resolveBoxBox (s : Space) (r1 r2 : Ref) : Except PyErr Space :=
  match s.players.head? with
  | none => Except.error PyErr.indexError
  | some p0 =>
    let o1 := s.getObjD r1
    let o2 := s.getObjD r2
    let d1 := |p0.x - o1.x|
    let d2 := |p0.x - o2.x|
    -- alpha_box = item1; if d1 > d2: alpha_box = item2
    match whatside o1 o2 with
    | some Side.top =>
      -- item2.speed = [0, 0]; item2.bottom = item1.top
      let s := s.assignSpeed r2 (0, 0)
      let o1b := s.getObjD r1
      let o2b := s.getObjD r2
      Except.ok (s.setObj r2 { o2b with y := o1b.y - o2b.h })
    | some Side.bottom =>
      -- item1.speed = [0, 0]; item1.bottom = item2.top
      let s := s.assignSpeed r1 (0, 0)
      let o1b := s.getObjD r1
      let o2b := s.getObjD r2
      Except.ok (s.setObj r1 { o1b with y := o2b.y - o1b.h })
    | some Side.left =>
      -- item1.speed[0] = 0; item2.speed[0] = 0; snap the non-alpha box
      let s := s.writeSpeedX r1 0
      let s := s.writeSpeedX r2 0
      let o1b := s.getObjD r1
      let o2b := s.getObjD r2
      if d1 > d2 then
        -- alpha is item2: item1.left = item2.right
        Except.ok (s.setObj r1 { o1b with x := o2b.x + o2b.w })
      else
        -- alpha is item1: item2.right = item1.left
        Except.ok (s.setObj r2 { o2b with x := o1b.x - o2b.w })
    | some Side.right =>
      let s := s.writeSpeedX r1 0
      let s := s.writeSpeedX r2 0
      let o1b := s.getObjD r1
      let o2b := s.getObjD r2
      if d1 > d2 then
        -- alpha is item2: item1.right = item2.left
        Except.ok (s.setObj r1 { o1b with x := o2b.x - o1b.w })
      else
        -- alpha is item1: item2.left = item1.right
        Except.ok (s.setObj r2 { o2b with x := o1b.x + o1b.w })
    | none => Except.ok s

/-- Border clamp, first step: `if item1.left < 0: speed[0] = 0; left = 0`. -/
def borderLeftStep (s : Space) (r : Ref) : Space :=
  let o := s.getObjD r
  if o.x < 0 then
    let s := s.writeSpeedX r 0
    let ob := s.getObjD r
    s.setObj r { ob with x := 0 }
  else s

/-- Border clamp, second step:
`if item1.right > self.w: speed[0] = 0; right = self.w`. -/
def borderRightStep (s : Space) (r : Ref) : Space :=
  let o := s.getObjD r
  if o.x + o.w > s.w then
    let s := s.writeSpeedX r 0
    let ob := s.getObjD r
    s.setObj r { ob with x := s.w - ob.w }
  else s

/-- Border clamp, third step:
`if item1.top < 0: speed[1] *= -1; top = 0`. -/
def borderTopStep (s : Space) (r : Ref) : Space :=
  let o := s.getObjD r
  if o.y < 0 then
    let s := s.mapSpeedY r (fun v => v * (-1))
    let ob := s.getObjD r
    s.setObj r { ob with y := 0 }
  else s

/-- Border clamp, fourth step:
`if item1.bottom > self.h: speed[1] *= 0; bottom = self.h`. -/
def borderBottomStep (s : Space) (r : Ref) : Space :=
  let o := s.getObjD r
  if o.y + o.h > s.h then
    let s := s.mapSpeedY r (fun v => v * 0)
    let ob := s.getObjD r
    s.setObj r { ob with y := s.h - ob.h }
  else s

/-- Resolution of an `object_to_border` event, lines 286–298 of the source:
the four sequential conditional clamps, each re-reading the entity, exactly
in the order left, right, top, bottom. -/
def Space.resolveBorder (s : Space) (r : Ref) : Space :=
  borderBottomStep (borderTopStep (borderRightStep (borderLeftStep s r) r) r) r

/-- Resolution of one collision event: the chain of
`if collision_type == ...` branches of `resolve_collisions`.  Events whose
second participant is the `"wall"` sentinel in a side-dependent category
would raise an `AttributeError` in Python (string has no rect attributes);
the detector never produces them. -/
def Space.resolve_one (s : Space) (c : Collision) : Except PyErr Space :=
  if c.ctype = ctBoxTarget then
    Except.ok { s with targets_engaged := s.targets_engaged + 1 }
  else if c.ctype = ctObjPlatform then
    match c.item2 with
    | Part.obj r2 => Except.ok (s.resolveObjPlatform c.item1 r2)
    | Part.wall => Except.error PyErr.attributeError
  else if c.ctype = ctPlayerBox then
    match c.item2 with
    | Part.obj r2 => Except.ok (s.resolvePlayerBox c.item1 r2)
    | Part.wall => Except.error PyErr.attributeError
  else if c.ctype = ctBoxBox then
    match c.item2 with
    | Part.obj r2 => s.resolveBoxBox c.item1 r2
    | Part.wall =>
      -- players[0] is read before item2: IndexError when no players,
      -- AttributeError otherwise
      if s.players.isEmpty then Except.error PyErr.indexError
      else Except.error PyErr.attributeError
  else if c.ctype = ctPlayerPlayer then
    Except.ok s
  else if c.ctype = ctObjBorder then
    Except.ok (s.resolveBorder c.item1)
  else
    Except.ok s

/-- `Space.resolve_collisions`: resolves the events in the order received. -/
def Space.resolve_collisions (s : Space) (cs : List Collision) :
    Except PyErr Space :=
  cs.foldlM Space.resolve_one s

/-- Helper `check_list` of `check_collisions`: the collisions of `item1` with
the members of a list, in list order (`Rect.collidelistall` returns the
matching indices in ascending order). -/
def checkList (item1 : Object) (r1 : Ref) (lst : List Object) (k2 : Kind)
    (ct : Nat) : List Collision :=
  (lst.enum.filterMap fun p =>
    if colliderect item1 p.2 then some ⟨r1, Part.obj ⟨k2, p.1⟩, ct⟩ else none)

/-- Helper `check_borders` of `check_collisions`. -/
def checkBorders (s : Space) (item1 : Object) (r1 : Ref) : List Collision :=
  if item1.x < 0 || item1.x + item1.w > s.w
      || item1.y < 0 || item1.y + item1.h > s.h then
    [⟨r1, Part.wall, ctObjBorder⟩]
  else []

/-- Helper `check_sametype` of `check_collisions`: every unordered pair of a
list exactly once, outer index below inner index. -/
def checkSametype (lst : List Object) (k : Kind) (ct : Nat) : List Collision :=
  (lst.enum.map fun p1 =>
    lst.enum.filterMap fun p2 =>
      if p1.1 < p2.1 && colliderect p1.2 p2.2 then
        some ⟨⟨k, p1.1⟩, Part.obj ⟨k, p2.1⟩, ct⟩
      else none).flatten

/-- The condition of the inner helper `check_playerinthinking`: the player is
horizontally strictly inside the thinking box and vertically aligned within a
2-unit tolerance on both bottom and top edges.  (In the source this closure
is declared with zero parameters but called with one argument, so it never
actually runs — see `Space.check_collisions`.) -/
def playerInThinkingCond (player tb : Object) : Bool :=
  player.x > tb.x && player.x + player.w < tb.x + tb.w
    && |(player.y + player.h) - (tb.y + tb.h)| < 2 && |player.y - tb.y| < 2

/-- Whether the detection pass raises: `check_playerinthinking` is defined
with no parameters but invoked as `check_playerinthinking(player)`
(line 174 of the source), so the first player's loop iteration raises a
`TypeError` whenever the space has a truthy thinking box — consequently
`self.player_in_thinkingbox = True` (line 152) is unreachable. -/
def Space.detectRaises (s : Space) : Bool :=
  s.players.length ≠ 0 &&
    (match s.thinkingbox with
      | some tb => rectTruthy tb
      | none => false)

/-- The full event list the detection pass builds (boxes before players;
within each, per-entity checks before same-type pairwise checks). -/
def Space.allCollisions (s : Space) : List Collision :=
  ((s.boxes.enum.map fun p =>
      checkList p.2 ⟨Kind.box, p.1⟩ s.targets Kind.target ctBoxTarget
        ++ checkList p.2 ⟨Kind.box, p.1⟩ s.platforms Kind.platform ctObjPlatform
        ++ checkBorders s p.2 ⟨Kind.box, p.1⟩).flatten
    ++ checkSametype s.boxes Kind.box ctBoxBox)
    ++ ((s.players.enum.map fun p =>
        checkList p.2 ⟨Kind.player, p.1⟩ s.platforms Kind.platform ctObjPlatform
          ++ checkList p.2 ⟨Kind.player, p.1⟩ s.boxes Kind.box ctPlayerBox
          ++ checkBorders s p.2 ⟨Kind.player, p.1⟩).flatten
      ++ checkSametype s.players Kind.player ctPlayerPlayer)

/-- `Space.check_collisions`: the detection pass.  Boxes are scanned first
(targets, platforms, border for each box, then every unordered box pair),
then players (platforms, boxes, border for each player, then every unordered
player pair).  The pass contains no entity mutation; the only statement that
would write state, the thinking-box flag assignment, sits behind the broken
zero-parameter call and is never reached — the pass instead raises a
`TypeError` whenever it would reach it (see `Space.detectRaises`), and
otherwise returns the space unchanged together with the event list. -/
def Space.check_collisions (s : Space) :
    Except PyErr (Space × List Collision) :=
  if s.detectRaises then
    Except.error PyErr.typeError
  else
    Except.ok (s, s.allCollisions)

/-- One settle iteration of `Space.step`: reset the engaged-target counter,
detect, resolve. -/
def Space.settleIter (s : Space) : Except PyErr Space := do
  let s := { s with targets_engaged := 0 }
  let (s, cols) ← s.check_collisions
  s.resolve_collisions cols

/-- The settle phase of `Space.step`: `for i in range(len(self.boxes))` —
the iteration count is the number of boxes at entry. -/
def Space.settlePhase (s : Space) : Except PyErr Space :=
  (List.range s.boxes.length).foldlM (fun s _ => s.settleIter) s

/-- `dynamic_objects = self.players + self.boxes`, as references. -/
def Space.dynRefs (s : Space) : List Ref :=
  (List.range s.players.length).map (fun i => ⟨Kind.player, i⟩)
    ++ (List.range s.boxes.length).map (fun i => ⟨Kind.box, i⟩)

/-- One iteration of the gravity loop:
`object.speed[1] += (self.gravity / fps)` — an in-place item write on the
list the attribute read yields; dividing by `fps = 0` raises. -/
def Space.gravityStep (fps : Int) (s : Space) (r : Ref) : Except PyErr Space :=
  if fps = 0 then Except.error PyErr.zeroDivisionError
  else Except.ok (s.mapSpeedY r (fun v => v + (s.gravity : ℚ) / (fps : ℚ)))

/-- One iteration of the integration loop:
`round(topleft + speed * (1 / fps))` on each axis. -/
def Space.moveStep (fps : Int) (s : Space) (r : Ref) : Except PyErr Space :=
  if fps = 0 then Except.error PyErr.zeroDivisionError
  else
    let o := s.getObjD r
    let sp := s.obsSpeedObj o
    let nx := pyRound ((o.x : ℚ) + sp.1 * (1 / (fps : ℚ)))
    let ny := pyRound ((o.y : ℚ) + sp.2 * (1 / (fps : ℚ)))
    Except.ok (s.setObj r { o with x := nx, y := ny })

/-- `Space.step(fps)`: clear the thinking-box flag, run the settle loop once
per box, then apply gravity to every dynamic object, then integrate
positions.  The source performs no framerate validation whatsoever: a
negative `fps` flows straight into the arithmetic, and `fps = 0` surfaces as
a `ZeroDivisionError` only if a dynamic object exists. -/
def Space.step (s : Space) (fps : Int) : Except PyErr Space := do
  let s := { s with player_in_thinkingbox := false }
  let s ← s.settlePhase
  let refs := s.dynRefs
  let s ← refs.foldlM (Space.gravityStep fps) s
  let s ← refs.foldlM (Space.moveStep fps) s
  return s

/-- Modelled from the spec (§4.5 read with zero settle iterations): a tick
that performs no collision detection or resolution — clear the thinking-box
flag, apply gravity to every dynamic object, integrate positions.  Used to
state that `Space.step` degenerates to exactly this when the world holds no
boxes. -/
def Space.stepNoSettle (s : Space) (fps : Int) : Except PyErr Space := do
  let s := { s with player_in_thinkingbox := false }
  let refs := s.dynRefs
  let s ← refs.foldlM (Space.gravityStep fps) s
  let s ← refs.foldlM (Space.moveStep fps) s
  return s

/-- Modelled from the claim wording for side determination: scan the sides in
the exact order top, bottom, right, left and return the first whose
edge-distance is strictly below 31 internal units. -/
def edgeDist (a b : Object) : Side → Int
  | Side.top => |a.y - (b.y + b.h)|
  | Side.bottom => |(a.y + a.h) - b.y|
  | Side.right => |(a.x + a.w) - b.x|
  | Side.left => |a.x - (b.x + b.w)|

/-- The claim's description of `whatside` as a fixed-priority scan. -/
def whatsideSpec (a b : Object) : Option Side :=
  [Side.top, Side.bottom, Side.right, Side.left].find?
    (fun sd => decide (edgeDist a b sd < 31))

/-- The class-level attributes of the Python `Space` *class* (lines 59–66 of
the source): the entity lists are initialised once, at class-definition time,
and `__init__` never rebinds them — so every instance without an instance
attribute of the same name reads (and mutates) these shared lists. -/
structure SpaceClassAttrs where
  targets : List Object
  players : List Object
  boxes : List Object
  platforms : List Object
deriving DecidableEq

/-- The class attributes as they stand when the class body is executed. -/
def initialSpaceClassAttrs : SpaceClassAttrs := ⟨[], [], [], []⟩

/-- The per-instance attribute slots of one Python `Space` instance that are
relevant to the entity lists: `__init__` assigns only `w`, `h`, `gravity`
and `upscale`, so a fresh instance has every list slot empty and reads the
class attribute through each. -/
structure SpaceInstSlots where
  w : Int
  h : Int
  gravity : Int
  upscale : Int
  targetsSlot : Option (List Object)
  playersSlot : Option (List Object)
  boxesSlot : Option (List Object)
  platformsSlot : Option (List Object)
deriving DecidableEq

/-- `Space(w, h, gravity, upscale)` in the two-instance model. -/
def mkSpaceInst (w h gravity : Int) (upscale : Int) : SpaceInstSlots :=
  ⟨w * upscale, h * upscale, gravity * upscale, upscale,
    none, none, none, none⟩

/-- Python attribute lookup for `self.boxes`: the instance slot when
assigned, else the class attribute. -/
def SpaceInstSlots.readBoxes (inst : SpaceInstSlots) (cls : SpaceClassAttrs) :
    List Object :=
  inst.boxesSlot.getD cls.boxes

/-- Attribute lookup for `self.players`. -/
def SpaceInstSlots.readPlayers (inst : SpaceInstSlots)
    (cls : SpaceClassAttrs) : List Object :=
  inst.playersSlot.getD cls.players

/-- `self.<list>.append(item)` in the two-instance model: an in-place
mutation of whichever list the attribute read yields — the shared class list
whenever the instance slot is empty. -/
def appendThrough (slot : Option (List Object)) (clsList : List Object)
    (item : Object) : Option (List Object) × List Object :=
  match slot with
  | some l => (some (l ++ [item]), clsList)
  | none => (none, clsList ++ [item])

/-- `Space.add_object` in the two-instance model (only the list appends; the
thinking-box branch rebinds an instance attribute and is not shared).
Returns the updated class attributes, the updated instance and the created
object. -/
def add_object_shared (cls : SpaceClassAttrs) (inst : SpaceInstSlots)
    (x y w h : Int) (ty : String) :
    SpaceClassAttrs × SpaceInstSlots × Object :=
  let item : Object :=
    ⟨x * inst.upscale, y * inst.upscale, w * inst.upscale, h * inst.upscale,
      none⟩
  if ty = "target" then
    let p := appendThrough inst.targetsSlot cls.targets item
    ({ cls with targets := p.2 }, { inst with targetsSlot := p.1 }, item)
  else if ty = "player" then
    let p := appendThrough inst.playersSlot cls.players item
    ({ cls with players := p.2 }, { inst with playersSlot := p.1 }, item)
  else if ty = "box" then
    let p := appendThrough inst.boxesSlot cls.boxes item
    ({ cls with boxes := p.2 }, { inst with boxesSlot := p.1 }, item)
  else if ty = "platform" then
    let p := appendThrough inst.platformsSlot cls.platforms item
    ({ cls with platforms := p.2 }, { inst with platformsSlot := p.1 }, item)
  else
    (cls, inst, item)

/-- The state a resolution step produced, with a fallback for the error
case (used only to phrase theorems without an existential). -/
def okD (e : Except PyErr Space) (s₀ : Space) : Space :=
  match e with
  | Except.ok s => s
  | Except.error _ => s₀

/-- Whether a result is a normal completion. -/
def isOkE (e : Except PyErr Space) : Bool :=
  match e with
  | Except.ok _ => true
  | Except.error _ => false

/-- A reference that actually denotes an element of its list. -/
def Space.validRef (s : Space) (r : Ref) : Prop :=
  r.idx < (s.kindList r.kind).length

instance (s : Space) (r : Ref) : Decidable (s.validRef r) :=
  inferInstanceAs (Decidable (r.idx < (s.kindList r.kind).length))

section Lemmas

variable {s : Space} {r r' : Ref} {o : Object} {v : ℚ}

lemma getD_set_self {l : List Object} {i : Nat} {a d : Object}
    (h : i < l.length) : (l.set i a).getD i d = a := by
  simp [List.getD_eq_getElem?_getD, List.getElem?_set_self h]

lemma getD_set_ne {l : List Object} {i j : Nat} {a d : Object}
    (h : i ≠ j) : (l.set i a).getD j d = l.getD j d := by
  simp [List.getD_eq_getElem?_getD, List.getElem?_set_ne h]

lemma kindList_setObj (s : Space) (r : Ref) (o : Object) (k : Kind) :
    (s.setObj r o).kindList k =
      if k = r.kind then (s.kindList r.kind).set r.idx o else s.kindList k := by
  cases hk : r.kind <;> cases k <;>
    simp [Space.setObj, Space.kindList, hk]

lemma getObjD_setObj_self (h : s.validRef r) :
    (s.setObj r o).getObjD r = o := by
  unfold Space.getObjD
  rw [kindList_setObj, if_pos rfl]
  exact getD_set_self h

lemma getObjD_setObj_ne (h : r' ≠ r) :
    (s.setObj r o).getObjD r' = s.getObjD r' := by
  unfold Space.getObjD
  rw [kindList_setObj]
  by_cases hk : r'.kind = r.kind
  · have hidx : r.idx ≠ r'.idx := by
      intro he
      exact h (by cases r; cases r'; simp_all)
    rw [if_pos hk, hk]
    exact getD_set_ne hidx
  · rw [if_neg hk]

lemma setObj_objectClassSpeed :
    (s.setObj r o).objectClassSpeed = s.objectClassSpeed := by
  cases hk : r.kind <;> simp [Space.setObj, hk]

lemma setObj_w : (s.setObj r o).w = s.w := by
  cases hk : r.kind <;> simp [Space.setObj, hk]

lemma setObj_h : (s.setObj r o).h = s.h := by
  cases hk : r.kind <;> simp [Space.setObj, hk]

lemma validRef_setObj (h : s.validRef r') :
    (s.setObj r o).validRef r' := by
  unfold Space.validRef at h ⊢
  simp [kindList_setObj]
  split <;> simp_all

lemma kindList_update_classSpeed (c : ℚ × ℚ) (k : Kind) :
    ({ s with objectClassSpeed := c } : Space).kindList k = s.kindList k := by
  cases k <;> rfl

lemma getObjD_update_classSpeed (c : ℚ × ℚ) (r : Ref) :
    ({ s with objectClassSpeed := c } : Space).getObjD r = s.getObjD r := by
  unfold Space.getObjD
  rw [kindList_update_classSpeed]

lemma validRef_update_classSpeed (c : ℚ × ℚ) (h : s.validRef r) :
    ({ s with objectClassSpeed := c } : Space).validRef r := by
  unfold Space.validRef at h ⊢
  rw [kindList_update_classSpeed]
  exact h

/-- Geometry (position and size) of every entity is untouched by a speed
write. -/
lemma getObjD_writeSpeedX_geom (s : Space) (r : Ref) (v : ℚ) (r' : Ref)
    (h' : s.validRef r') :
    (((s.writeSpeedX r v).getObjD r').x = (s.getObjD r').x
      ∧ ((s.writeSpeedX r v).getObjD r').y = (s.getObjD r').y)
      ∧ ((s.writeSpeedX r v).getObjD r').w = (s.getObjD r').w
      ∧ ((s.writeSpeedX r v).getObjD r').h = (s.getObjD r').h := by
  unfold Space.writeSpeedX
  cases hso : (s.getObjD r).speedInst with
  | none =>
    simp only [hso]
    rw [getObjD_update_classSpeed]
    exact ⟨⟨rfl, rfl⟩, rfl, rfl⟩
  | some p =>
    simp only [hso]
    by_cases hrr : r' = r
    · subst hrr
      rw [getObjD_setObj_self h']
      exact ⟨⟨rfl, rfl⟩, rfl, rfl⟩
    · rw [getObjD_setObj_ne hrr]
      exact ⟨⟨rfl, rfl⟩, rfl, rfl⟩

lemma validRef_writeSpeedX (h : s.validRef r') :
    (s.writeSpeedX r v).validRef r' := by
  unfold Space.writeSpeedX
  cases hso : (s.getObjD r).speedInst with
  | none =>
    simp only [hso]
    exact validRef_update_classSpeed _ h
  | some p =>
    simp only [hso]
    exact validRef_setObj h

/-- After `item.speed[0] = v` the item observes horizontal speed `v`. -/
lemma obsSpeedX_writeSpeedX_self (h : s.validRef r) :
    ((s.writeSpeedX r v).obsSpeed r).1 = v := by
  unfold Space.writeSpeedX
  cases hso : (s.getObjD r).speedInst with
  | none =>
    simp only [hso]
    unfold Space.obsSpeed Space.obsSpeedObj
    rw [getObjD_update_classSpeed, hso]
    rfl
  | some p =>
    simp only [hso]
    unfold Space.obsSpeed Space.obsSpeedObj
    rw [getObjD_setObj_self h]
    rfl

/-- A second horizontal-speed write of the same value `0` cannot disturb an
item already observing `0`. -/
lemma obsSpeedX_writeSpeedX_pres (h : s.validRef r)
    (h0 : (s.obsSpeed r).1 = 0) :
    ((s.writeSpeedX r' 0).obsSpeed r).1 = 0 := by
  by_cases hrr : r = r'
  · subst hrr
    exact obsSpeedX_writeSpeedX_self h
  · unfold Space.writeSpeedX
    cases hso : (s.getObjD r').speedInst with
    | none =>
      simp only [hso]
      unfold Space.obsSpeed Space.obsSpeedObj at h0 ⊢
      rw [getObjD_update_classSpeed]
      cases hso2 : (s.getObjD r).speedInst with
      | none => rfl
      | some q =>
        rw [hso2] at h0
        exact h0
    | some p =>
      simp only [hso]
      unfold Space.obsSpeed Space.obsSpeedObj at h0 ⊢
      rw [getObjD_setObj_ne hrr, setObj_objectClassSpeed]
      exact h0

lemma writeSpeedX_w : (s.writeSpeedX r v).w = s.w := by
  unfold Space.writeSpeedX
  cases hso : (s.getObjD r).speedInst with
  | none => simp only [hso]
  | some p =>
    simp only [hso]
    exact setObj_w

lemma writeSpeedX_h : (s.writeSpeedX r v).h = s.h := by
  unfold Space.writeSpeedX
  cases hso : (s.getObjD r).speedInst with
  | none => simp only [hso]
  | some p =>
    simp only [hso]
    exact setObj_h

lemma getObjD_mapSpeedY_geom (s : Space) (r : Ref) (f : ℚ → ℚ) (r' : Ref)
    (h' : s.validRef r') :
    (((s.mapSpeedY r f).getObjD r').x = (s.getObjD r').x
      ∧ ((s.mapSpeedY r f).getObjD r').y = (s.getObjD r').y)
      ∧ ((s.mapSpeedY r f).getObjD r').w = (s.getObjD r').w
      ∧ ((s.mapSpeedY r f).getObjD r').h = (s.getObjD r').h := by
  unfold Space.mapSpeedY
  cases hso : (s.getObjD r).speedInst with
  | none =>
    simp only [hso]
    rw [getObjD_update_classSpeed]
    exact ⟨⟨rfl, rfl⟩, rfl, rfl⟩
  | some p =>
    simp only [hso]
    by_cases hrr : r' = r
    · subst hrr
      rw [getObjD_setObj_self h']
      exact ⟨⟨rfl, rfl⟩, rfl, rfl⟩
    · rw [getObjD_setObj_ne hrr]
      exact ⟨⟨rfl, rfl⟩, rfl, rfl⟩

lemma validRef_mapSpeedY {f : ℚ → ℚ} (h : s.validRef r') :
    (s.mapSpeedY r f).validRef r' := by
  unfold Space.mapSpeedY
  cases hso : (s.getObjD r).speedInst with
  | none =>
    simp only [hso]
    exact validRef_update_classSpeed _ h
  | some p =>
    simp only [hso]
    exact validRef_setObj h

lemma mapSpeedY_w {f : ℚ → ℚ} : (s.mapSpeedY r f).w = s.w := by
  unfold Space.mapSpeedY
  cases hso : (s.getObjD r).speedInst with
  | none => simp only [hso]
  | some p =>
    simp only [hso]
    exact setObj_w

lemma mapSpeedY_h {f : ℚ → ℚ} : (s.mapSpeedY r f).h = s.h := by
  unfold Space.mapSpeedY
  cases hso : (s.getObjD r).speedInst with
  | none => simp only [hso]
  | some p =>
    simp only [hso]
    exact setObj_h

/-- Writing an object back with its current speed attribute (a pure position
update) does not change any observed speed. -/
lemma obsSpeed_setObj_samespeed (h : s.validRef r)
    (hsp : o.speedInst = (s.getObjD r).speedInst) (r' : Ref) :
    ((s.setObj r o).obsSpeed r') = s.obsSpeed r' := by
  unfold Space.obsSpeed Space.obsSpeedObj
  by_cases hrr : r' = r
  · subst hrr
    rw [getObjD_setObj_self h, setObj_objectClassSpeed, hsp]
  · rw [getObjD_setObj_ne hrr, setObj_objectClassSpeed]

/-- Special case of `obsSpeed_setObj_samespeed` in the syntactic shape the
position-snapping writes of the resolver produce. -/
lemma obsSpeed_setObj_geomUpdate (s : Space) (r : Ref) (xv yv : Int)
    (h : s.validRef r) (r' : Ref) :
    ((s.setObj r
        { x := xv, y := yv, w := (s.getObjD r).w, h := (s.getObjD r).h,
          speedInst := (s.getObjD r).speedInst }).obsSpeed r')
      = s.obsSpeed r' := by
  unfold Space.obsSpeed Space.obsSpeedObj
  by_cases hrr : r' = r
  · subst hrr
    rw [getObjD_setObj_self h, setObj_objectClassSpeed]
  · rw [getObjD_setObj_ne hrr, setObj_objectClassSpeed]

lemma borderLeftStep_spec (h : s.validRef r) :
    ((borderLeftStep s r).getObjD r).x
        = (if (s.getObjD r).x < 0 then 0 else (s.getObjD r).x)
      ∧ ((borderLeftStep s r).getObjD r).y = (s.getObjD r).y
      ∧ ((borderLeftStep s r).getObjD r).w = (s.getObjD r).w
      ∧ ((borderLeftStep s r).getObjD r).h = (s.getObjD r).h
      ∧ (borderLeftStep s r).w = s.w ∧ (borderLeftStep s r).h = s.h
      ∧ (borderLeftStep s r).validRef r := by
  unfold borderLeftStep
  by_cases hc : (s.getObjD r).x < 0
  · simp only [if_pos hc]
    have h1 : (s.writeSpeedX r 0).validRef r := validRef_writeSpeedX h
    have hg := getObjD_writeSpeedX_geom s r 0 r h
    rw [getObjD_setObj_self h1]
    refine ⟨rfl, ?_, ?_, ?_, ?_, ?_, validRef_setObj h1⟩
    · exact hg.1.2
    · exact hg.2.1
    · exact hg.2.2
    · rw [setObj_w, writeSpeedX_w]
    · rw [setObj_h, writeSpeedX_h]
  · simp only [if_neg hc]
    exact ⟨trivial, trivial, trivial, trivial, trivial, trivial, h⟩

lemma borderRightStep_spec (h : s.validRef r) :
    ((borderRightStep s r).getObjD r).x
        = (if (s.getObjD r).x + (s.getObjD r).w > s.w then
            s.w - (s.getObjD r).w else (s.getObjD r).x)
      ∧ ((borderRightStep s r).getObjD r).y = (s.getObjD r).y
      ∧ ((borderRightStep s r).getObjD r).w = (s.getObjD r).w
      ∧ ((borderRightStep s r).getObjD r).h = (s.getObjD r).h
      ∧ (borderRightStep s r).w = s.w ∧ (borderRightStep s r).h = s.h
      ∧ (borderRightStep s r).validRef r := by
  unfold borderRightStep
  by_cases hc : (s.getObjD r).x + (s.getObjD r).w > s.w
  · simp only [if_pos hc]
    have h1 : (s.writeSpeedX r 0).validRef r := validRef_writeSpeedX h
    have hg := getObjD_writeSpeedX_geom s r 0 r h
    rw [getObjD_setObj_self h1]
    refine ⟨?_, ?_, ?_, ?_, ?_, ?_, validRef_setObj h1⟩
    · show (s.writeSpeedX r 0).w - ((s.writeSpeedX r 0).getObjD r).w = _
      rw [writeSpeedX_w, hg.2.1]
    · exact hg.1.2
    · exact hg.2.1
    · exact hg.2.2
    · rw [setObj_w, writeSpeedX_w]
    · rw [setObj_h, writeSpeedX_h]
  · simp only [if_neg hc]
    exact ⟨trivial, trivial, trivial, trivial, trivial, trivial, h⟩

lemma borderTopStep_spec (h : s.validRef r) :
    ((borderTopStep s r).getObjD r).y
        = (if (s.getObjD r).y < 0 then 0 else (s.getObjD r).y)
      ∧ ((borderTopStep s r).getObjD r).x = (s.getObjD r).x
      ∧ ((borderTopStep s r).getObjD r).w = (s.getObjD r).w
      ∧ ((borderTopStep s r).getObjD r).h = (s.getObjD r).h
      ∧ (borderTopStep s r).w = s.w ∧ (borderTopStep s r).h = s.h
      ∧ (borderTopStep s r).validRef r := by
  unfold borderTopStep
  by_cases hc : (s.getObjD r).y < 0
  · simp only [if_pos hc]
    have h1 : (s.mapSpeedY r (fun v => v * (-1))).validRef r := validRef_mapSpeedY h
    have hg := getObjD_mapSpeedY_geom s r (fun v => v * (-1)) r h
    rw [getObjD_setObj_self h1]
    refine ⟨rfl, ?_, ?_, ?_, ?_, ?_, validRef_setObj h1⟩
    · exact hg.1.1
    · exact hg.2.1
    · exact hg.2.2
    · rw [setObj_w, mapSpeedY_w]
    · rw [setObj_h, mapSpeedY_h]
  · simp only [if_neg hc]
    exact ⟨trivial, trivial, trivial, trivial, trivial, trivial, h⟩

lemma borderBottomStep_spec (h : s.validRef r) :
    ((borderBottomStep s r).getObjD r).y
        = (if (s.getObjD r).y + (s.getObjD r).h > s.h then
            s.h - (s.getObjD r).h else (s.getObjD r).y)
      ∧ ((borderBottomStep s r).getObjD r).x = (s.getObjD r).x
      ∧ ((borderBottomStep s r).getObjD r).w = (s.getObjD r).w
      ∧ ((borderBottomStep s r).getObjD r).h = (s.getObjD r).h
      ∧ (borderBottomStep s r).w = s.w ∧ (borderBottomStep s r).h = s.h
      ∧ (borderBottomStep s r).validRef r := by
  unfold borderBottomStep
  by_cases hc : (s.getObjD r).y + (s.getObjD r).h > s.h
  · simp only [if_pos hc]
    have h1 : (s.mapSpeedY r (fun v => v * 0)).validRef r := validRef_mapSpeedY h
    have hg := getObjD_mapSpeedY_geom s r (fun v => v * 0) r h
    rw [getObjD_setObj_self h1]
    refine ⟨?_, ?_, ?_, ?_, ?_, ?_, validRef_setObj h1⟩
    · show (s.mapSpeedY r (fun v => v * 0)).h
          - ((s.mapSpeedY r (fun v => v * 0)).getObjD r).h = _
      rw [mapSpeedY_h, hg.2.2]
    · exact hg.1.1
    · exact hg.2.1
    · exact hg.2.2
    · rw [setObj_w, mapSpeedY_w]
    · rw [setObj_h, mapSpeedY_h]
  · simp only [if_neg hc]
    exact ⟨trivial, trivial, trivial, trivial, trivial, trivial, h⟩

/-- Full characterisation of the geometry after border resolution. -/
lemma resolveBorder_spec (h : s.validRef r) :
    ((s.resolveBorder r).getObjD r).w = (s.getObjD r).w
      ∧ ((s.resolveBorder r).getObjD r).h = (s.getObjD r).h
      ∧ ((s.resolveBorder r).getObjD r).x
        = (if (if (s.getObjD r).x < 0 then 0 else (s.getObjD r).x)
              + (s.getObjD r).w > s.w then
            s.w - (s.getObjD r).w
          else if (s.getObjD r).x < 0 then 0 else (s.getObjD r).x)
      ∧ ((s.resolveBorder r).getObjD r).y
        = (if (if (s.getObjD r).y < 0 then 0 else (s.getObjD r).y)
              + (s.getObjD r).h > s.h then
            s.h - (s.getObjD r).h
          else if (s.getObjD r).y < 0 then 0 else (s.getObjD r).y) := by
  obtain ⟨a1, a2, a3, a4, a5, a6, a7⟩ := borderLeftStep_spec h
  obtain ⟨b1, b2, b3, b4, b5, b6, b7⟩ := borderRightStep_spec a7
  obtain ⟨c1, c2, c3, c4, c5, c6, c7⟩ := borderTopStep_spec b7
  obtain ⟨d1, d2, d3, d4, d5, d6, d7⟩ := borderBottomStep_spec c7
  unfold Space.resolveBorder
  refine ⟨?_, ?_, ?_, ?_⟩
  · rw [d3, c3, b3, a3]
  · rw [d4, c4, b4, a4]
  · rw [d2, c2, b1, a1, a3, a5]
  · rw [d1, c1, b2, a2, c4, b4, a4, c6, b6, a6]

end Lemmas

/-- The space fields that operations on player entities cannot touch. -/
def dynFrame (s2 s1 : Space) : Prop :=
  s2.targets = s1.targets ∧ s2.platforms = s1.platforms
    ∧ s2.targets_engaged = s1.targets_engaged
    ∧ s2.player_on_ground = s1.player_on_ground
    ∧ s2.thinkingbox = s1.thinkingbox
    ∧ s2.boxes = s1.boxes
    ∧ s2.player_in_thinkingbox = s1.player_in_thinkingbox

section FrameLemmas

variable {s s1 s2 s3 : Space} {r : Ref} {o : Object}

lemma dynFrame_refl (s : Space) : dynFrame s s :=
  ⟨rfl, rfl, rfl, rfl, rfl, rfl, rfl⟩

lemma dynFrame_trans (h32 : dynFrame s3 s2) (h21 : dynFrame s2 s1) :
    dynFrame s3 s1 := by
  obtain ⟨a1, a2, a3, a4, a5, a6, a7⟩ := h32
  obtain ⟨b1, b2, b3, b4, b5, b6, b7⟩ := h21
  exact ⟨a1.trans b1, a2.trans b2, a3.trans b3, a4.trans b4,
    a5.trans b5, a6.trans b6, a7.trans b7⟩

lemma dynFrame_setObj_player (hk : r.kind = Kind.player) :
    dynFrame (s.setObj r o) s := by
  unfold Space.setObj
  rw [hk]
  exact ⟨rfl, rfl, rfl, rfl, rfl, rfl, rfl⟩

lemma dynFrame_update_classSpeed (c : ℚ × ℚ) :
    dynFrame ({ s with objectClassSpeed := c } : Space) s :=
  ⟨rfl, rfl, rfl, rfl, rfl, rfl, rfl⟩

lemma dynFrame_mapSpeedY_player {f : ℚ → ℚ} (hk : r.kind = Kind.player) :
    dynFrame (s.mapSpeedY r f) s := by
  unfold Space.mapSpeedY
  cases hso : (s.getObjD r).speedInst with
  | none =>
    simp only [hso]
    exact dynFrame_update_classSpeed _
  | some p =>
    simp only [hso]
    exact dynFrame_setObj_player hk

lemma dynFrame_gravityStep {fps : Int} (hk : r.kind = Kind.player)
    (h : Space.gravityStep fps s r = Except.ok s2) : dynFrame s2 s := by
  unfold Space.gravityStep at h
  by_cases hz : fps = 0
  · rw [if_pos hz] at h
    exact absurd h (by simp)
  · rw [if_neg hz] at h
    cases h
    exact dynFrame_mapSpeedY_player hk

lemma dynFrame_moveStep {fps : Int} (hk : r.kind = Kind.player)
    (h : Space.moveStep fps s r = Except.ok s2) : dynFrame s2 s := by
  unfold Space.moveStep at h
  by_cases hz : fps = 0
  · rw [if_pos hz] at h
    exact absurd h (by simp)
  · rw [if_neg hz] at h
    cases h
    exact dynFrame_setObj_player hk

lemma dynFrame_foldlM (F : Int → Space → Ref → Except PyErr Space)
    (hF : ∀ (fps : Int) (s s2 : Space) (r : Ref), r.kind = Kind.player →
      F fps s r = Except.ok s2 → dynFrame s2 s)
    (fps : Int) :
    ∀ (refs : List Ref), (∀ r ∈ refs, r.kind = Kind.player) →
      ∀ (s s2 : Space), refs.foldlM (F fps) s = Except.ok s2 → dynFrame s2 s := by
  intro refs
  induction refs with
  | nil =>
    intro _ s s2 h
    cases h
    exact dynFrame_refl s
  | cons r rs ih =>
    intro hall s s2 h
    rw [List.foldlM_cons] at h
    cases hr : F fps s r with
    | error e =>
      rw [hr] at h
      exact absurd h (by simp [Bind.bind, Except.bind])
    | ok s1 =>
      rw [hr] at h
      have h1 : dynFrame s1 s :=
        hF fps s s1 r (hall r (List.mem_cons_self r rs)) hr
      have h2 : dynFrame s2 s1 :=
        ih (fun q hq => hall q (List.mem_cons_of_mem r hq)) s1 s2 h
      exact dynFrame_trans h2 h1

end FrameLemmas

/-! ## Concrete scenarios

All coordinates below are in internal (already upscaled) units of a
20×10-tile world with `upscale = 100` and `gravity = 98` (stored upscaled as
9800), i.e. the world is 2000×1000 internal units. -/

/-- A world with two players and no boxes, both players still reading the
shared class-level speed list (`speedInst = none`), at rest, touching
nothing. -/
def c2Space : Space :=
  { mkSpace 20 10 98 100 with
    players := [⟨100, 100, 100, 100, none⟩, ⟨500, 500, 100, 100, none⟩] }

/-- A world with a single player, used for the framerate claims. -/
def c5Space : Space :=
  { mkSpace 20 10 98 100 with players := [⟨500, 500, 100, 200, none⟩] }

/-- The player of the trigger-zone scenario: horizontally strictly inside the
zone, top and bottom edges within the 2-unit tolerance. -/
def c7Player : Object := ⟨250, 201, 100, 300, none⟩

/-- The trigger zone ("thinking box") of the trigger-zone scenario. -/
def c7Zone : Object := ⟨200, 200, 800, 300, none⟩

/-- A world with a trigger zone and one player placed exactly inside it. -/
def c7Space : Space :=
  { mkSpace 20 10 98 100 with
    players := [c7Player],
    thinkingbox := some c7Zone }

/-- A box resting on a platform (overlapping it), used as a detection
scenario that succeeds and produces an event. -/
def c8Space : Space :=
  { mkSpace 20 10 98 100 with
    boxes := [⟨0, 850, 100, 100, none⟩],
    platforms := [⟨0, 900, 2000, 100, none⟩] }

/-! ## Claim C4 -/

/-- Claim C4 (status: code_bug).  The spec demands that `add_entity` with an
unknown category fail with an `InvalidCategory` error.  The code cannot
fail: `Space.add_object` with the unknown category `"spaceship"` silently
returns a handle and leaves every collection unchanged.  (The collections of
the space are unchanged — the half of the claim about that is what the code
does — but no error of any kind is raised.) -/
theorem add_object_unknown_category_is_silent :
    (mkSpace 20 10 98 100).add_object 1 1 1 1 "spaceship"
      = (mkSpace 20 10 98 100, ⟨100, 100, 100, 100, none⟩) := by
  decide

/-! ## Claim C5 -/

unseal Rat.add Rat.sub Rat.mul Rat.inv Rat.ofScientific in
/-- Claim C5 (status: code_bug).  The spec demands `step` fail with
`InvalidFramerate` for every framerate ≤ 0.  The code performs no framerate
validation: `step(-5)` on a world with a player completes normally (applying
a negative gravity increment), and `step(0)` on a world with no dynamic
objects also completes normally (the division by zero sits inside the loop
body and is never executed). -/
theorem step_accepts_nonpositive_framerate :
    isOkE (c5Space.step (-5)) = true
      ∧ isOkE ((mkSpace 20 10 98 100).step 0) = true := by
  decide

/-! ## Claim C2 -/

unseal Rat.add Rat.sub Rat.mul Rat.inv Rat.ofScientific in
/-- Claim C2 (status: code_bug).  `Object.speed` is a mutable class
attribute shared by every object that never received an instance speed
assignment, so the gravity loop `object.speed[1] += gravity / fps` mutates
the one shared list once per dynamic object.  With two players and no boxes,
one `step(60)` leaves each player observing a vertical speed of
`2 * (gravity / 60)` — twice the claimed per-entity increment
`gravity / 60`. -/
theorem gravity_increment_is_doubled_by_shared_speed :
    c2Space.step 60
        = Except.ok
          { c2Space with
            players := [⟨100, 105, 100, 100, none⟩, ⟨500, 505, 100, 100, none⟩],
            objectClassSpeed := (0, mkRat 980 3) }
      ∧ ((okD (c2Space.step 60) c2Space).obsSpeed ⟨Kind.player, 0⟩).2
          = 2 * ((9800 : ℚ) / 60)
      ∧ ((okD (c2Space.step 60) c2Space).obsSpeed ⟨Kind.player, 1⟩).2
          = 2 * ((9800 : ℚ) / 60)
      ∧ 2 * ((9800 : ℚ) / 60) ≠ (9800 : ℚ) / 60 := by
  decide

/-! ## Claim C7 -/

/-- Claim C7 (status: code_bug).  The trigger-zone condition itself is the
one the claim describes (first conjunct), but the detection pass can never
evaluate it: `check_playerinthinking` is declared with zero parameters and
called with one argument, so whenever a (truthy) trigger zone and at least
one player exist — here a player exactly satisfying the condition —
`check_collisions` raises a `TypeError` instead of completing and setting
the flag. -/
theorem trigger_zone_detection_raises_type_error :
    playerInThinkingCond c7Player c7Zone = true
      ∧ c7Space.check_collisions = Except.error PyErr.typeError := by
  decide

/-! ## Claim C3 -/

/-- Claim C3 (status: code_bug).  The entity lists of `Space` are class
attributes never rebound by `__init__`, so two freshly constructed spaces
share them: `add_object(3, 3, 1, 1, "box")` on the first instance makes the
box visible through the second instance's `boxes` attribute, which was empty
beforehand. -/
theorem add_object_leaks_across_space_instances :
    (mkSpaceInst 30 15 98 100).readBoxes
        (add_object_shared initialSpaceClassAttrs
          (mkSpaceInst 20 10 98 100) 3 3 1 1 "box").1
      = [⟨300, 300, 100, 100, none⟩]
      ∧ (mkSpaceInst 30 15 98 100).readBoxes initialSpaceClassAttrs = [] := by
  decide

/-! ## Claim C8 -/

/-- Claim C8 (status: confirmed).  The detection pass contains no entity
mutation: whenever `check_collisions` completes, the returned space carries
exactly the input's entity lists, trigger zone and shared speed state (hence
every entity's position, size and velocity are unchanged). -/
theorem check_collisions_never_mutates_entities (s s2 : Space)
    (evts : List Collision)
    (h : s.check_collisions = Except.ok (s2, evts)) :
    s2.targets = s.targets ∧ s2.players = s.players ∧ s2.boxes = s.boxes
      ∧ s2.platforms = s.platforms ∧ s2.thinkingbox = s.thinkingbox
      ∧ s2.objectClassSpeed = s.objectClassSpeed := by
  unfold Space.check_collisions at h
  by_cases hc : s.detectRaises
  · rw [if_pos hc] at h
    exact absurd h (by simp)
  · rw [if_neg hc] at h
    simp only [Except.ok.injEq, Prod.mk.injEq] at h
    rw [← h.1]
    exact ⟨rfl, rfl, rfl, rfl, rfl, rfl⟩

/-- The events the detection scenario `c8Space` produces: one
box-to-platform overlap. -/
def c8Events : List Collision :=
  [⟨⟨Kind.box, 0⟩, Part.obj ⟨Kind.platform, 0⟩, ctObjPlatform⟩]

/-- Witness for `check_collisions_never_mutates_entities` at the concrete
scenario `c8Space`, whose detection succeeds with one event. -/
theorem check_collisions_never_mutates_entities_witness :
    c8Space.check_collisions = Except.ok (c8Space, c8Events)
      ∧ (c8Space.targets = c8Space.targets
        ∧ c8Space.players = c8Space.players ∧ c8Space.boxes = c8Space.boxes
        ∧ c8Space.platforms = c8Space.platforms
        ∧ c8Space.thinkingbox = c8Space.thinkingbox
        ∧ c8Space.objectClassSpeed = c8Space.objectClassSpeed) :=
  ⟨by decide,
    check_collisions_never_mutates_entities c8Space c8Space c8Events
      (by decide)⟩

/-! ## Claim C6 -/

/-- First box of the C6 counterexample: deeply overlapped with the second. -/
def c6Box1 : Object := ⟨0, 0, 100, 100, none⟩

/-- Second box of the C6 counterexample. -/
def c6Box2 : Object := ⟨31, 31, 100, 100, none⟩

/-- A world with the two deeply overlapping boxes and no players. -/
def c6Space : Space :=
  { mkSpace 20 10 98 100 with boxes := [c6Box1, c6Box2] }

/-- Claim C6 counterexample.  The two boxes overlap and none of the four
edge-distances is below the tolerance, yet resolving their box-to-box event
is not a no-op: with no players registered, `resolve_collisions` reads
`self.players[0]` before side determination and raises an `IndexError`. -/
theorem no_qualifying_side_box_box_raises_without_player :
    colliderect c6Box1 c6Box2 = true
      ∧ whatside c6Box1 c6Box2 = none
      ∧ c6Space.resolve_one ⟨⟨Kind.box, 0⟩, Part.obj ⟨Kind.box, 1⟩, ctBoxBox⟩
          = Except.error PyErr.indexError := by
  decide

/-- Claim C6 (status: corrected).  Side determination follows exactly the
fixed priority top, bottom, right, left with the strict 31-unit tolerance
(first conjunct: `whatside` agrees with the spec-worded scan
`whatsideSpec`); and when no side qualifies, resolving an
object-hits-platform or player-hits-box event leaves the space — both
participants' positions and velocities included — unchanged, while a
box-hits-box event does so provided at least one player is registered (with
no players it raises an `IndexError` instead, see the counterexample). -/
theorem whatside_priority_order_and_noop :
    (∀ a b : Object, whatside a b = whatsideSpec a b)
      ∧ ∀ (s : Space) (r1 r2 : Ref),
          whatside (s.getObjD r1) (s.getObjD r2) = none →
            s.resolve_one ⟨r1, Part.obj r2, ctObjPlatform⟩ = Except.ok s
            ∧ s.resolve_one ⟨r1, Part.obj r2, ctPlayerBox⟩ = Except.ok s
            ∧ (s.players ≠ [] →
                s.resolve_one ⟨r1, Part.obj r2, ctBoxBox⟩ = Except.ok s) := by
  constructor
  · intro a b
    unfold whatside whatsideSpec edgeDist
    by_cases h1 : |a.y - (b.y + b.h)| < 31
    · simp [List.find?, h1]
    · by_cases h2 : |(a.y + a.h) - b.y| < 31
      · simp [List.find?, h1, h2]
      · by_cases h3 : |(a.x + a.w) - b.x| < 31
        · simp [List.find?, h1, h2, h3]
        · by_cases h4 : |a.x - (b.x + b.w)| < 31
          · simp [List.find?, h1, h2, h3, h4]
          · simp [List.find?, h1, h2, h3, h4]
  · intro s r1 r2 hside
    refine ⟨?_, ?_, ?_⟩
    · show Except.ok (s.resolveObjPlatform r1 r2) = Except.ok s
      unfold Space.resolveObjPlatform
      dsimp only
      rw [hside]
    · show Except.ok (s.resolvePlayerBox r1 r2) = Except.ok s
      unfold Space.resolvePlayerBox
      dsimp only
      rw [hside]
    · intro hp
      show s.resolveBoxBox r1 r2 = Except.ok s
      unfold Space.resolveBoxBox
      cases hh : s.players.head? with
      | none => exact absurd (List.head?_eq_none_iff.mp hh) hp
      | some p0 =>
        dsimp only
        rw [hside]

/-- A platform-contact scenario with no qualifying side: the box is buried
deep inside the platform. -/
def c6wSpace : Space :=
  { mkSpace 20 10 98 100 with
    players := [⟨1500, 100, 100, 200, none⟩],
    boxes := [⟨100, 531, 100, 100, none⟩],
    platforms := [⟨0, 500, 2000, 500, none⟩] }

/-- Witness for `whatside_priority_order_and_noop` at a concrete grazing
contact: no side qualifies, and resolution of the platform, player-box and
box-box events is a no-op. -/
theorem whatside_priority_order_and_noop_witness :
    whatside ⟨0, 0, 100, 100, none⟩ ⟨31, 31, 100, 100, none⟩
        = whatsideSpec ⟨0, 0, 100, 100, none⟩ ⟨31, 31, 100, 100, none⟩
      ∧ c6wSpace.resolve_one
          ⟨⟨Kind.box, 0⟩, Part.obj ⟨Kind.platform, 0⟩, ctObjPlatform⟩
          = Except.ok c6wSpace :=
  ⟨whatside_priority_order_and_noop.1 ⟨0, 0, 100, 100, none⟩
      ⟨31, 31, 100, 100, none⟩,
    (whatside_priority_order_and_noop.2 c6wSpace ⟨Kind.box, 0⟩
      ⟨Kind.platform, 0⟩ (by decide)).1⟩

/-! ## Claim C10 -/

/-- Claim C10 (status: confirmed).  With zero boxes the settle loop
`for i in range(len(self.boxes))` runs zero iterations, so a tick performs
no collision detection or resolution at all: `step` coincides with the
settle-free tick `stepNoSettle` (clear the thinking-box flag, gravity,
integration), and on normal completion the engaged-target counter, the
grounded flag, the platforms and the targets keep their previous values
while the thinking-box flag is left cleared. -/
theorem step_with_no_boxes_skips_settle (s : Space) (fps : Int)
    (hb : s.boxes = []) :
    s.step fps = s.stepNoSettle fps
      ∧ ∀ s2, s.step fps = Except.ok s2 →
          s2.targets_engaged = s.targets_engaged
            ∧ s2.player_on_ground = s.player_on_ground
            ∧ s2.platforms = s.platforms
            ∧ s2.targets = s.targets
            ∧ s2.boxes = []
            ∧ s2.player_in_thinkingbox = false := by
  have hb0 : ({ s with player_in_thinkingbox := false } : Space).boxes = [] := hb
  have hset :
      ({ s with player_in_thinkingbox := false } : Space).settlePhase
        = Except.ok { s with player_in_thinkingbox := false } := by
    unfold Space.settlePhase
    rw [hb0]
    rfl
  have heq : s.step fps = s.stepNoSettle fps := by
    unfold Space.step Space.stepNoSettle
    dsimp only
    rw [hset]
    rfl
  refine ⟨heq, ?_⟩
  intro s2 h
  rw [heq] at h
  unfold Space.stepNoSettle at h
  dsimp only at h
  have hrefs :
      ∀ r ∈ ({ s with player_in_thinkingbox := false } : Space).dynRefs,
        r.kind = Kind.player := by
    intro r hr
    unfold Space.dynRefs at hr
    rw [hb0] at hr
    simp at hr
    obtain ⟨i, _, hi⟩ := hr
    rw [← hi]
  cases hg : (({ s with player_in_thinkingbox := false } : Space).dynRefs).foldlM
      (Space.gravityStep fps) { s with player_in_thinkingbox := false } with
  | error e =>
    rw [hg] at h
    exact absurd h (by simp [Bind.bind, Except.bind])
  | ok sg =>
    rw [hg] at h
    simp only [Bind.bind, Except.bind] at h
    cases hm : (({ s with player_in_thinkingbox := false } : Space).dynRefs).foldlM
        (Space.moveStep fps) sg with
    | error e =>
      rw [hm] at h
      exact absurd h (by simp)
    | ok sm =>
      rw [hm] at h
      simp only [pure, Except.pure, Except.ok.injEq] at h
      have hfg : dynFrame sg { s with player_in_thinkingbox := false } :=
        dynFrame_foldlM Space.gravityStep
          (fun _ _ _ _ hk hok => dynFrame_gravityStep hk hok) fps
          _ hrefs _ sg hg
      have hfm : dynFrame sm sg :=
        dynFrame_foldlM Space.moveStep
          (fun _ _ _ _ hk hok => dynFrame_moveStep hk hok) fps
          _ hrefs _ sm hm
      have hf : dynFrame sm { s with player_in_thinkingbox := false } :=
        dynFrame_trans hfm hfg
      obtain ⟨f1, f2, f3, f4, f5, f6, f7⟩ := hf
      rw [← h]
      exact ⟨f3, f4, f2, f1, by rw [f6]; exact hb0, f7⟩

/-- A box-free world whose player overlaps a platform and whose flags and
counter carry values from a previous tick. -/
def c10Space : Space :=
  { mkSpace 20 10 98 100 with
    players := [⟨500, 850, 100, 200, none⟩],
    platforms := [⟨0, 900, 2000, 100, none⟩],
    targets_engaged := 7,
    player_on_ground := true }

/-- Witness for `step_with_no_boxes_skips_settle` at the concrete box-free
world `c10Space` and framerate 60. -/
theorem step_with_no_boxes_skips_settle_witness :
    c10Space.step 60 = c10Space.stepNoSettle 60 :=
  (step_with_no_boxes_skips_settle c10Space 60 rfl).1

/-! ## Claim C9 -/

/-- A world holding one floating in-bounds box (so the settle loop runs a
full iteration) and a platform protruding past the left world border. -/
def c9Space : Space :=
  { mkSpace 20 10 98 100 with
    boxes := [⟨500, 500, 100, 100, none⟩],
    platforms := [⟨-500, 0, 100, 100, none⟩] }

/-- Claim C9 counterexample.  The settle phase of `c9Space` runs one full
detect-and-resolve iteration and completes without touching anything — yet
the platform's left edge still violates the border afterwards: platforms
(and targets) are never border-checked, so "after resolution every entity is
inside the world border" fails. -/
theorem platform_out_of_bounds_survives_settle :
    c9Space.settlePhase = Except.ok c9Space
      ∧ (c9Space.platforms.getD 0 defaultObj).x < 0 := by
  decide

/-- Claim C9 (status: corrected).  What the border resolution does
guarantee: immediately after resolving an `object_to_border` event whose
participant is no larger than the world, all four of the participant's
edges are inside the border. -/
theorem border_resolution_clamps_into_bounds (s : Space) (r : Ref)
    (hr : s.validRef r)
    (hw : (s.getObjD r).w ≤ s.w) (hh : (s.getObjD r).h ≤ s.h) :
    ∀ s2, s.resolve_one ⟨r, Part.wall, ctObjBorder⟩ = Except.ok s2 →
      0 ≤ (s2.getObjD r).x
        ∧ (s2.getObjD r).x + (s2.getObjD r).w ≤ s.w
        ∧ 0 ≤ (s2.getObjD r).y
        ∧ (s2.getObjD r).y + (s2.getObjD r).h ≤ s.h := by
  intro s2 h
  have h2 : s2 = s.resolveBorder r := by
    unfold Space.resolve_one at h
    simp only [ctObjBorder, ctBoxTarget, ctObjPlatform, ctPlayerBox,
      ctBoxBox, ctPlayerPlayer] at h
    norm_num at h
    exact h.symm
  subst h2
  obtain ⟨hsw, hsh, hx, hy⟩ := resolveBorder_spec hr
  rw [hsw, hsh, hx, hy]
  constructor
  · split <;> omega
  · constructor
    · split <;> [omega; (split <;> omega)]
    · constructor
      · split <;> omega
      · split <;> [omega; (split <;> omega)]

/-- A world whose only player protrudes past the left and bottom borders. -/
def c9wSpace : Space :=
  { mkSpace 20 10 98 100 with
    players := [⟨-50, 990, 100, 100, none⟩] }

/-- The same world after its player's border event is resolved: clamped to
the bottom-left corner, vertical speed zeroed in the shared class list. -/
def c9wAfter : Space :=
  { mkSpace 20 10 98 100 with
    players := [⟨0, 900, 100, 100, none⟩] }

unseal Rat.add Rat.sub Rat.mul Rat.inv Rat.ofScientific in
/-- Witness for `border_resolution_clamps_into_bounds`: the out-of-bounds
player of `c9wSpace` is clamped fully inside the world. -/
theorem border_resolution_clamps_into_bounds_witness :
    0 ≤ (c9wAfter.getObjD ⟨Kind.player, 0⟩).x
      ∧ (c9wAfter.getObjD ⟨Kind.player, 0⟩).x
          + (c9wAfter.getObjD ⟨Kind.player, 0⟩).w ≤ c9wSpace.w
      ∧ 0 ≤ (c9wAfter.getObjD ⟨Kind.player, 0⟩).y
      ∧ (c9wAfter.getObjD ⟨Kind.player, 0⟩).y
          + (c9wAfter.getObjD ⟨Kind.player, 0⟩).h ≤ c9wSpace.h :=
  border_resolution_clamps_into_bounds c9wSpace ⟨Kind.player, 0⟩
    (by decide) (by decide) (by decide) c9wAfter (by decide)

/-! ## Claim C1 -/

/-- The first registered player of the C1 scenario, at the left edge. -/
def c1Player : Object := ⟨0, 0, 100, 200, none⟩

/-- The box nearer to the player (horizontal distance 100). -/
def c1BoxNear : Object := ⟨100, 0, 60, 100, none⟩

/-- The box farther from the player (horizontal distance 150), overlapping
the nearer box with a qualifying right-side contact. -/
def c1BoxFar : Object := ⟨150, 0, 60, 100, none⟩

/-- A world holding the player and the two horizontally colliding boxes. -/
def c1Space : Space :=
  { mkSpace 20 10 98 100 with
    players := [c1Player],
    boxes := [c1BoxNear, c1BoxFar] }

/-- Claim C1 counterexample.  Box 1 is the *farther* box (the claim's
dominant box), the contact qualifies as a right-side contact — yet resolving
the event moves box 1 from `x = 150` to `x = 160` (snapped to the nearer
box's right edge) while the nearer box 0 keeps its position: the code treats
the *nearer* box as dominant, the reverse of the claim. -/
theorem farther_box_yields_position_in_box_box_contact :
    |c1Player.x - c1BoxFar.x| > |c1Player.x - c1BoxNear.x|
      ∧ whatside c1BoxNear c1BoxFar = some Side.right
      ∧ ((okD (c1Space.resolve_one
            ⟨⟨Kind.box, 0⟩, Part.obj ⟨Kind.box, 1⟩, ctBoxBox⟩)
          c1Space).boxes.getD 1 defaultObj).x = 160
      ∧ (c1Space.boxes.getD 1 defaultObj).x = 150
      ∧ ((okD (c1Space.resolve_one
            ⟨⟨Kind.box, 0⟩, Part.obj ⟨Kind.box, 1⟩, ctBoxBox⟩)
          c1Space).boxes.getD 0 defaultObj).x = 100
      ∧ (c1Space.boxes.getD 0 defaultObj).x = 100 := by
  decide

/-- Claim C1 (status: corrected).  For a box-to-box event with at least one
registered player and a qualifying horizontal contact, both boxes observe
horizontal velocity 0 afterwards, and the dominant (alpha) box — the
participant *nearer* to the first registered player in horizontal distance,
the first participant on ties — keeps its position while the non-dominant
(farther) box is snapped flush against it: on a right-side contact the
snapped box's facing edge meets the dominant box's facing edge, likewise on
a left-side contact. -/
theorem box_box_horizontal_contact_nearer_box_dominant (s : Space)
    (i j : Nat) (p0 : Object) (sd : Side)
    (hp : s.players.head? = some p0)
    (hi : i < s.boxes.length) (hj : j < s.boxes.length) (hij : i ≠ j)
    (hsd : sd = Side.left ∨ sd = Side.right)
    (hside : whatside (s.getObjD ⟨Kind.box, i⟩) (s.getObjD ⟨Kind.box, j⟩)
        = some sd) :
    ∀ s2, s.resolve_one ⟨⟨Kind.box, i⟩, Part.obj ⟨Kind.box, j⟩, ctBoxBox⟩
        = Except.ok s2 →
      (s2.obsSpeed ⟨Kind.box, i⟩).1 = 0
      ∧ (s2.obsSpeed ⟨Kind.box, j⟩).1 = 0
      ∧ (|p0.x - (s.getObjD ⟨Kind.box, i⟩).x|
            > |p0.x - (s.getObjD ⟨Kind.box, j⟩).x| →
          (s2.getObjD ⟨Kind.box, j⟩).x = (s.getObjD ⟨Kind.box, j⟩).x
          ∧ (s2.getObjD ⟨Kind.box, j⟩).y = (s.getObjD ⟨Kind.box, j⟩).y
          ∧ (sd = Side.right →
              (s2.getObjD ⟨Kind.box, i⟩).x + (s.getObjD ⟨Kind.box, i⟩).w
                = (s.getObjD ⟨Kind.box, j⟩).x)
          ∧ (sd = Side.left →
              (s2.getObjD ⟨Kind.box, i⟩).x
                = (s.getObjD ⟨Kind.box, j⟩).x + (s.getObjD ⟨Kind.box, j⟩).w))
      ∧ (¬ |p0.x - (s.getObjD ⟨Kind.box, i⟩).x|
            > |p0.x - (s.getObjD ⟨Kind.box, j⟩).x| →
          (s2.getObjD ⟨Kind.box, i⟩).x = (s.getObjD ⟨Kind.box, i⟩).x
          ∧ (s2.getObjD ⟨Kind.box, i⟩).y = (s.getObjD ⟨Kind.box, i⟩).y
          ∧ (sd = Side.right →
              (s2.getObjD ⟨Kind.box, j⟩).x
                = (s.getObjD ⟨Kind.box, i⟩).x + (s.getObjD ⟨Kind.box, i⟩).w)
          ∧ (sd = Side.left →
              (s2.getObjD ⟨Kind.box, j⟩).x + (s.getObjD ⟨Kind.box, j⟩).w
                = (s.getObjD ⟨Kind.box, i⟩).x)) := by
  intro s2 h
  have hvi : s.validRef ⟨Kind.box, i⟩ := hi
  have hvj : s.validRef ⟨Kind.box, j⟩ := hj
  have hneij : (⟨Kind.box, i⟩ : Ref) ≠ ⟨Kind.box, j⟩ := by
    simp [hij]
  have hneji : (⟨Kind.box, j⟩ : Ref) ≠ ⟨Kind.box, i⟩ := by
    simp [Ne.symm hij]
  have hred : s.resolve_one ⟨⟨Kind.box, i⟩, Part.obj ⟨Kind.box, j⟩, ctBoxBox⟩
      = s.resolveBoxBox ⟨Kind.box, i⟩ ⟨Kind.box, j⟩ := rfl
  rw [hred] at h
  unfold Space.resolveBoxBox at h
  rw [hp] at h
  dsimp only at h
  rw [hside] at h
  have hvi1 : (s.writeSpeedX ⟨Kind.box, i⟩ 0).validRef ⟨Kind.box, i⟩ :=
    validRef_writeSpeedX hvi
  have hvj1 : (s.writeSpeedX ⟨Kind.box, i⟩ 0).validRef ⟨Kind.box, j⟩ :=
    validRef_writeSpeedX hvj
  have hviS :
      ((s.writeSpeedX ⟨Kind.box, i⟩ 0).writeSpeedX
        ⟨Kind.box, j⟩ 0).validRef ⟨Kind.box, i⟩ :=
    validRef_writeSpeedX hvi1
  have hvjS :
      ((s.writeSpeedX ⟨Kind.box, i⟩ 0).writeSpeedX
        ⟨Kind.box, j⟩ 0).validRef ⟨Kind.box, j⟩ :=
    validRef_writeSpeedX hvj1
  have gi1 := getObjD_writeSpeedX_geom s ⟨Kind.box, i⟩ 0 ⟨Kind.box, i⟩ hvi
  have giS := getObjD_writeSpeedX_geom (s.writeSpeedX ⟨Kind.box, i⟩ 0)
    ⟨Kind.box, j⟩ 0 ⟨Kind.box, i⟩ hvi1
  have gj1 := getObjD_writeSpeedX_geom s ⟨Kind.box, i⟩ 0 ⟨Kind.box, j⟩ hvj
  have gjS := getObjD_writeSpeedX_geom (s.writeSpeedX ⟨Kind.box, i⟩ 0)
    ⟨Kind.box, j⟩ 0 ⟨Kind.box, j⟩ hvj1
  have gix := giS.1.1.trans gi1.1.1
  have giy := giS.1.2.trans gi1.1.2
  have giw := giS.2.1.trans gi1.2.1
  have gjx := gjS.1.1.trans gj1.1.1
  have gjy := gjS.1.2.trans gj1.1.2
  have gjw := gjS.2.1.trans gj1.2.1
  have sp1 :
      (((s.writeSpeedX ⟨Kind.box, i⟩ 0).writeSpeedX
          ⟨Kind.box, j⟩ 0).obsSpeed ⟨Kind.box, i⟩).1 = 0 :=
    obsSpeedX_writeSpeedX_pres hvi1 (obsSpeedX_writeSpeedX_self hvi)
  have sp2 :
      (((s.writeSpeedX ⟨Kind.box, i⟩ 0).writeSpeedX
          ⟨Kind.box, j⟩ 0).obsSpeed ⟨Kind.box, j⟩).1 = 0 :=
    obsSpeedX_writeSpeedX_self hvj1
  rcases hsd with rfl | rfl
  · -- left-side contact
    dsimp only at h
    by_cases hd : |p0.x - (s.getObjD ⟨Kind.box, i⟩).x|
        > |p0.x - (s.getObjD ⟨Kind.box, j⟩).x|
    · rw [if_pos hd] at h
      simp only [Except.ok.injEq] at h
      subst h
      refine ⟨?_, ?_, ?_, ?_⟩
      · rw [obsSpeed_setObj_geomUpdate _ _ _ _ hviS]
        exact sp1
      · rw [obsSpeed_setObj_geomUpdate _ _ _ _ hviS]
        exact sp2
      · intro _
        rw [getObjD_setObj_ne hneji]
        refine ⟨gjx, gjy, ?_, ?_⟩
        · intro hq
          exact absurd hq (by decide)
        · intro _
          rw [getObjD_setObj_self hviS]
          dsimp only
          rw [gjx, gjw]
      · intro hcon
        exact absurd hd hcon
    · rw [if_neg hd] at h
      simp only [Except.ok.injEq] at h
      subst h
      refine ⟨?_, ?_, ?_, ?_⟩
      · rw [obsSpeed_setObj_geomUpdate _ _ _ _ hvjS]
        exact sp1
      · rw [obsSpeed_setObj_geomUpdate _ _ _ _ hvjS]
        exact sp2
      · intro hcon
        exact absurd hcon hd
      · intro _
        rw [getObjD_setObj_ne hneij]
        refine ⟨gix, giy, ?_, ?_⟩
        · intro hq
          exact absurd hq (by decide)
        · intro _
          rw [getObjD_setObj_self hvjS]
          dsimp only
          rw [gix, gjw]
          omega
  · -- right-side contact
    dsimp only at h
    by_cases hd : |p0.x - (s.getObjD ⟨Kind.box, i⟩).x|
        > |p0.x - (s.getObjD ⟨Kind.box, j⟩).x|
    · rw [if_pos hd] at h
      simp only [Except.ok.injEq] at h
      subst h
      refine ⟨?_, ?_, ?_, ?_⟩
      · rw [obsSpeed_setObj_geomUpdate _ _ _ _ hviS]
        exact sp1
      · rw [obsSpeed_setObj_geomUpdate _ _ _ _ hviS]
        exact sp2
      · intro _
        rw [getObjD_setObj_ne hneji]
        refine ⟨gjx, gjy, ?_, ?_⟩
        · intro _
          rw [getObjD_setObj_self hviS]
          dsimp only
          rw [gjx, giw]
          omega
        · intro hq
          exact absurd hq (by decide)
      · intro hcon
        exact absurd hd hcon
    · rw [if_neg hd] at h
      simp only [Except.ok.injEq] at h
      subst h
      refine ⟨?_, ?_, ?_, ?_⟩
      · rw [obsSpeed_setObj_geomUpdate _ _ _ _ hvjS]
        exact sp1
      · rw [obsSpeed_setObj_geomUpdate _ _ _ _ hvjS]
        exact sp2
      · intro hcon
        exact absurd hcon hd
      · intro _
        rw [getObjD_setObj_ne hneij]
        refine ⟨gix, giy, ?_, ?_⟩
        · intro _
          rw [getObjD_setObj_self hvjS]
          dsimp only
          rw [gix, giw]
        · intro hq
          exact absurd hq (by decide)

/-- The C1 scenario after resolution: the farther box snapped to the nearer
box's right edge. -/
def c1After : Space :=
  { mkSpace 20 10 98 100 with
    players := [c1Player],
    boxes := [c1BoxNear, ⟨160, 0, 60, 100, none⟩] }

/-- Witness for `box_box_horizontal_contact_nearer_box_dominant` at the
concrete scenario `c1Space`. -/
theorem box_box_horizontal_nearer_box_dominant_witness :
    (c1After.obsSpeed ⟨Kind.box, 0⟩).1 = 0
      ∧ (c1After.obsSpeed ⟨Kind.box, 1⟩).1 = 0
      ∧ (|c1Player.x - (c1Space.getObjD ⟨Kind.box, 0⟩).x|
            > |c1Player.x - (c1Space.getObjD ⟨Kind.box, 1⟩).x| →
          (c1After.getObjD ⟨Kind.box, 1⟩).x = (c1Space.getObjD ⟨Kind.box, 1⟩).x
          ∧ (c1After.getObjD ⟨Kind.box, 1⟩).y
              = (c1Space.getObjD ⟨Kind.box, 1⟩).y
          ∧ (Side.right = Side.right →
              (c1After.getObjD ⟨Kind.box, 0⟩).x
                  + (c1Space.getObjD ⟨Kind.box, 0⟩).w
                = (c1Space.getObjD ⟨Kind.box, 1⟩).x)
          ∧ (Side.right = Side.left →
              (c1After.getObjD ⟨Kind.box, 0⟩).x
                = (c1Space.getObjD ⟨Kind.box, 1⟩).x
                  + (c1Space.getObjD ⟨Kind.box, 1⟩).w))
      ∧ (¬ |c1Player.x - (c1Space.getObjD ⟨Kind.box, 0⟩).x|
            > |c1Player.x - (c1Space.getObjD ⟨Kind.box, 1⟩).x| →
          (c1After.getObjD ⟨Kind.box, 0⟩).x = (c1Space.getObjD ⟨Kind.box, 0⟩).x
          ∧ (c1After.getObjD ⟨Kind.box, 0⟩).y
              = (c1Space.getObjD ⟨Kind.box, 0⟩).y
          ∧ (Side.right = Side.right →
              (c1After.getObjD ⟨Kind.box, 1⟩).x
                = (c1Space.getObjD ⟨Kind.box, 0⟩).x
                  + (c1Space.getObjD ⟨Kind.box, 0⟩).w)
          ∧ (Side.right = Side.left →
              (c1After.getObjD ⟨Kind.box, 1⟩).x
                  + (c1Space.getObjD ⟨Kind.box, 1⟩).w
                = (c1Space.getObjD ⟨Kind.box, 0⟩).x)) :=
  box_box_horizontal_contact_nearer_box_dominant c1Space 0 1 c1Player
    Side.right rfl (by decide) (by decide) (by decide) (Or.inr rfl)
    (by decide) c1After (by decide)

end Phys
